import Mathlib

/-!
Verification development for the CivitFetch repository
(`CLI/CiviFetch.py`, `CLI/ImgPull.py`, `GUI/app.py`).

The repository contains three near-duplicate pipelines: a CLI model
downloader (`CiviFetch.py`), a CLI image/gallery downloader (`ImgPull.py`)
and a GUI (`app.py`) combining both.  The definitions below are shallow
embeddings of the Python functions, organised in namespaces mirroring the
source files:

  * `CiviFetch` — functions of `src/CLI/CiviFetch.py`
  * `ImgPull`   — functions of `src/CLI/ImgPull.py`
  * `GUIApp`    — functions of `src/GUI/app.py`

Network transports, download streams and the clock are modelled as explicit
oracles (functions from attempt/page numbers to events); the filesystem is a
list of written files.  Python string operations on the ASCII inputs used by
the program are modelled on `List Char`.
-/

/-! ## Shared string helpers (Python `str` operations used by the sources) -/

/-- Occurrence test for a `List Char` needle inside a haystack, scanning
positions left to right exactly like Python's `in` operator on `str`. -/
def sublistSearch (needle : List Char) : List Char → Bool
  | [] => needle.isPrefixOf []
  | c :: rest => needle.isPrefixOf (c :: rest) || sublistSearch needle rest

/-- Python `needle in hay` for strings. -/
def strContains (hay needle : String) : Bool :=
  sublistSearch needle.data hay.data

/-- Python `str.lower()` restricted to the ASCII range, which is the range
exercised by the program's tag and filename data. -/
def pyLower (s : String) : String :=
  String.mk (s.data.map Char.toLower)

/-- First match of the regex `/models/(\d+)` in a character list: scan
positions left to right; at a position where the literal `/models/` is
followed by at least one digit, return the maximal digit run (the capture
group of `re.search`). -/
def scanModelsId : List Char → Option (List Char)
  | [] => none
  | c :: rest =>
    let l := c :: rest
    if "/models/".data.isPrefixOf l ∧ ((l.drop 8).headD ' ').isDigit then
      some ((l.drop 8).takeWhile Char.isDigit)
    else
      scanModelsId rest

/-- First match of the regex `modelVersionId=(\d+)`, same scanning scheme. -/
def scanVersionId : List Char → Option (List Char)
  | [] => none
  | c :: rest =>
    let l := c :: rest
    if "modelVersionId=".data.isPrefixOf l ∧ ((l.drop 15).headD ' ').isDigit then
      some ((l.drop 15).takeWhile Char.isDigit)
    else
      scanVersionId rest

/-- First match of the regex `filename="([^"]+)"` (used on the
`content-disposition` header): the capture group is a nonempty run of
non-quote characters terminated by a closing quote. -/
def scanCdFilename : List Char → Option (List Char)
  | [] => none
  | c :: rest =>
    let l := c :: rest
    if "filename=\"".data.isPrefixOf l then
      let body := l.drop 10
      let group := body.takeWhile (· ≠ '"')
      if group ≠ [] ∧ (body.drop group.length).headD ' ' = '"' then
        some group
      else
        scanCdFilename rest
    else
      scanCdFilename rest

/-- The characters removed by `re.sub(r'[<>:"/\\|?*]', '_', name)` in all
three `sanitize_filename` variants. -/
def invalidFilenameChars : List Char := ['<', '>', ':', '"', '/', '\\', '|', '?', '*']

/-- One character of the `re.sub` above. -/
def substInvalidChar (c : Char) : Char :=
  if c ∈ invalidFilenameChars then '_' else c

/-- Python `str.split(sep)` for a single-character separator. -/
def pySplitChar (sep : Char) (l : List Char) : List (List Char) :=
  match l with
  | [] => [[]]
  | c :: rest =>
    let r := pySplitChar sep rest
    if c = sep then [] :: r
    else
      match r with
      | [] => [[c]]
      | seg :: segs => (c :: seg) :: segs

/-- Index of the last `'.'` in a character list, if any. -/
def lastDotIdx (l : List Char) : Option Nat :=
  match (l.reverse).findIdx? (· = '.') with
  | none => none
  | some j => some (l.length - 1 - j)

/-- Root part of `os.path.splitext` applied to a path without directory
separators: split at the last dot unless every character before it is a dot
(so purely leading dots do not start an extension). -/
def splitextRoot (l : List Char) : List Char :=
  match lastDotIdx l with
  | none => l
  | some i => if (l.take i).all (· = '.') then l else l.take i

/-- Python `str.replace(' ', '_')` (single-character pattern). -/
def replaceSpaces (s : String) : String :=
  String.mk (s.data.map fun c => if c = ' ' then '_' else c)

namespace CiviFetch

/-- NSFW classification of `CLI/CiviFetch.py`, `detect_nsfw_from_tags`:
empty tag list returns `"SFW"` immediately (before consulting the flag);
otherwise any tag containing `"nsfw"` case-insensitively gives `"NSFW"`,
then the explicit flag gives `"NSFW"`, else `"SFW"`. -/
def detect_nsfw_from_tags (tags : List String) (nsfw_flag : Bool) : String :=
  if tags = [] then "SFW"
  else if tags.any (fun tag => strContains (pyLower tag) "nsfw") then "NSFW"
  else if nsfw_flag then "NSFW"
  else "SFW"

end CiviFetch

namespace GUIApp

/-- NSFW classification of `GUI/app.py`, `detect_nsfw_from_tags`: the
explicit flag is consulted first, then the empty-tag default, then the
case-insensitive tag substring check. -/
def detect_nsfw_from_tags (tags : List String) (nsfw_flag : Bool) : String :=
  if nsfw_flag then "NSFW"
  else if tags = [] then "SFW"
  else if tags.any (fun tag => strContains (pyLower tag) "nsfw") then "NSFW"
  else "SFW"

end GUIApp

/-- Modelled from the spec: the NSFW classification algorithm exactly as the
specification words it — tag substring match first, then the explicit flag,
else SFW — used as the comparison point for the classification claims. -/
def nsfwSpecClassify (tags : List String) (nsfw_flag : Bool) : String :=
  if tags.any (fun tag => strContains (pyLower tag) "nsfw") then "NSFW"
  else if nsfw_flag then "NSFW"
  else "SFW"

/-! ## Filename sanitisation -/

namespace ImgPull

/-- The `sanitize_filename` of `CLI/ImgPull.py`: replace the invalid
characters by underscores, then truncate to 100 characters. -/
def sanitize_filename (name : String) : String :=
  String.mk ((name.data.map substInvalidChar).take 100)

end ImgPull

namespace GUIApp

/-- The module-level `sanitize_filename` of `GUI/app.py` (used for model
file names): replace invalid characters, truncate to 100 characters. -/
def sanitize_filename (name : String) : String :=
  String.mk ((name.data.map substInvalidChar).take 100)

/-- `CivitaiDownloader.sanitize_filename` of `GUI/app.py` (used by the
gallery engine): replace invalid characters, strip leading and trailing
dots and spaces (Python `strip('. ')`), then truncate to 150 characters. -/
def downloader_sanitize_filename (name : String) : String :=
  let subbed := name.data.map substInvalidChar
  let stripped :=
    ((subbed.dropWhile (fun c => c = '.' ∨ c = ' ')).reverse.dropWhile
      (fun c => c = '.' ∨ c = ' ')).reverse
  String.mk (stripped.take 150)

end GUIApp

/-! ## URL/ID resolver -/

namespace CiviFetch

/-- Model-ID extraction in `CiviFetch.main`: the first `/models/<digits>`
match, else the entry itself (bare-ID input). -/
def extract_model_id (entry : String) : String :=
  match scanModelsId entry.data with
  | some ds => String.mk ds
  | none => entry

/-- The dedup loop of `CiviFetch.main` (lines 246-259): walk the entries
keeping a `seen` set, emitting each extracted model ID on first sight. -/
def resolveLoop (seen : List String) : List String → List String
  | [] => []
  | e :: rest =>
    let id := extract_model_id e
    if id ∈ seen then resolveLoop seen rest
    else id :: resolveLoop (id :: seen) rest

/-- `unique_model_ids` as computed by `CiviFetch.main`. -/
def resolve (entries : List String) : List String :=
  resolveLoop [] entries

end CiviFetch

namespace GUIApp

/-- Model-ID extraction of the bulk branch of `handle_model_download_new`
(`GUI/app.py` lines 267-276); textually identical to the CLI resolver. -/
def extract_model_id (entry : String) : String :=
  match scanModelsId entry.data with
  | some ds => String.mk ds
  | none => entry

/-- The dedup loop of the bulk branch of `handle_model_download_new`. -/
def resolveLoop (seen : List String) : List String → List String
  | [] => []
  | e :: rest =>
    let id := extract_model_id e
    if id ∈ seen then resolveLoop seen rest
    else id :: resolveLoop (id :: seen) rest

/-- `unique_model_ids` as computed by the GUI bulk branch. -/
def resolve (entries : List String) : List String :=
  resolveLoop [] entries

end GUIApp

/-- Modelled from the spec: "the unique IDs in first-seen order" — keep the
first occurrence of each element, dropping later duplicates. -/
def firstSeenDedup : List String → List String
  | [] => []
  | a :: l => a :: firstSeenDedup (l.filter (· ≠ a))
termination_by l => l.length
decreasing_by simp only [List.length_cons]; exact Nat.lt_succ_of_le (List.length_filter_le _ _)

/-! ## Rate-limited API client -/

/-- One transport event observed by an API request attempt: an HTTP
response (status, optional parsed `Retry-After` header, JSON body modelled
as a number) or a connection/timeout failure. -/
inductive TEvent where
  | resp (status : Nat) (retryAfter : Option Nat) (body : Nat)
  | connErr
deriving DecidableEq

namespace ImgPull

def MAX_RETRIES : Nat := 5
def RETRY_DELAY : Nat := 3

/-- How `ImgPull.make_api_request` ends: a parsed JSON body, a `ValueError`
for 404, or a `ConnectionError` (generic failure / retries exhausted). -/
inductive ApiOutcome where
  | ok (body : Nat)
  | notFound
  | connFail
deriving DecidableEq

/-- Observable trace of one `make_api_request` call: its outcome, the
number of HTTP requests issued, and each sleep together with the transport
event that caused it. -/
structure ApiTrace where
  result : ApiOutcome
  requests : Nat
  sleeps : List (TEvent × Nat)
deriving DecidableEq

/-- The retry loop of `ImgPull.make_api_request` (lines 61-103).  `fuel`
is `MAX_RETRIES - retries`, so the loop guard `retries < MAX_RETRIES` is
`fuel > 0` and the mid-loop test `retries >= MAX_RETRIES - 1` is
`fuel = 1` (written below on the decremented fuel).  200 returns the body;
429/524 sleeps the `Retry-After` value or `RETRY_DELAY`; 404 raises
immediately; any other status and connection errors sleep `RETRY_DELAY`
unless the attempt budget is exhausted. -/
def make_api_request_loop (tr : Nat → TEvent) :
    Nat → Nat → List (TEvent × Nat) → ApiTrace
  | 0, req, log => ⟨.connFail, req, log⟩
  | fuel + 1, req, log =>
    match tr req with
    | .resp s ra b =>
      if s = 200 then ⟨.ok b, req + 1, log⟩
      else if s = 429 ∨ s = 524 then
        make_api_request_loop tr fuel (req + 1)
          (log ++ [(.resp s ra b, ra.getD RETRY_DELAY)])
      else if s = 404 then ⟨.notFound, req + 1, log⟩
      else if fuel = 0 then ⟨.connFail, req + 1, log⟩
      else
        make_api_request_loop tr fuel (req + 1)
          (log ++ [(.resp s ra b, RETRY_DELAY)])
    | .connErr =>
      if fuel = 0 then ⟨.connFail, req + 1, log⟩
      else
        make_api_request_loop tr fuel (req + 1) (log ++ [(.connErr, RETRY_DELAY)])

/-- `ImgPull.make_api_request` on a transport oracle. -/
def make_api_request (tr : Nat → TEvent) : ApiTrace :=
  make_api_request_loop tr MAX_RETRIES 0 []

/-- The wait the CLI image client performs after a retryable event: the
`Retry-After` value (default `RETRY_DELAY`) for 429/524, the fixed
`RETRY_DELAY` otherwise. -/
def expectedSleep : TEvent → Nat
  | .resp s ra _ => if s = 429 ∨ s = 524 then ra.getD RETRY_DELAY else RETRY_DELAY
  | .connErr => RETRY_DELAY

end ImgPull

namespace GUIApp

def MAX_RETRIES : Nat := 3
def RETRY_DELAY : Nat := 10

/-- Which branch ended `GUIApp.make_api_request`; the branches are
distinguishable only through the log message the code writes (the returned
value is `None` in every non-success case). -/
inductive GuiExit where
  | success
  | authError
  | clientError
  | maxRetries
deriving DecidableEq

/-- Observable trace of one GUI `make_api_request` call. -/
structure GuiApiTrace where
  result : Option Nat
  exit : GuiExit
  requests : Nat
  sleeps : List (TEvent × Nat)
deriving DecidableEq

/-- The retry loop of `GUI/app.py` `make_api_request` (lines 534-572).
`fuel` is `MAX_RETRIES - retries`.  200 succeeds; 401/403 return `None`
immediately (auth log line); 429/524 sleep the `Retry-After` value or
`RETRY_DELAY`; 5xx and connection errors increment `retries` and sleep
`RETRY_DELAY * retries` (linear backoff); any other status (404 included)
returns `None` immediately (client-error log line). -/
def make_api_request_loop (tr : Nat → TEvent) :
    Nat → Nat → List (TEvent × Nat) → GuiApiTrace
  | 0, req, log => ⟨none, .maxRetries, req, log⟩
  | fuel + 1, req, log =>
    match tr req with
    | .resp s ra b =>
      if s = 200 then ⟨some b, .success, req + 1, log⟩
      else if s = 401 ∨ s = 403 then ⟨none, .authError, req + 1, log⟩
      else if s = 429 ∨ s = 524 then
        make_api_request_loop tr fuel (req + 1)
          (log ++ [(.resp s ra b, ra.getD RETRY_DELAY)])
      else if 500 ≤ s then
        make_api_request_loop tr fuel (req + 1)
          (log ++ [(.resp s ra b, RETRY_DELAY * (MAX_RETRIES - fuel))])
      else ⟨none, .clientError, req + 1, log⟩
    | .connErr =>
      make_api_request_loop tr fuel (req + 1)
        (log ++ [(.connErr, RETRY_DELAY * (MAX_RETRIES - fuel))])

/-- `GUIApp.make_api_request` on a transport oracle. -/
def make_api_request (tr : Nat → TEvent) : GuiApiTrace :=
  make_api_request_loop tr MAX_RETRIES 0 []

/-- The wait the GUI client performs after the k-th retried event
(1-based): the `Retry-After` value (default `RETRY_DELAY`) for 429/524,
and the linear backoff `RETRY_DELAY * k` for 5xx/connection errors. -/
def expectedSleep (e : TEvent) (k : Nat) : Nat :=
  match e with
  | .resp s ra _ => if s = 429 ∨ s = 524 then ra.getD RETRY_DELAY else RETRY_DELAY * k
  | .connErr => RETRY_DELAY * k

end GUIApp

/-! ## File download engine -/

/-- One transport event per download attempt: a response whose body streams
fully (`ok`), a response whose `raise_for_status` fails (`httpErr`), or a
response whose stream dies mid-body after `written` bytes of content were
written to the destination (`streamFail`).  File contents are abstracted to
a number; `cd` is the raw `content-disposition` header when present. -/
inductive DlEvent where
  | ok (cd : Option String) (content : Nat)
  | httpErr
  | streamFail (cd : Option String) (written : Nat)
deriving DecidableEq

/-- Filename resolution of both `download_with_progress` variants:
`re.search(r'filename="([^"]+)"', cd)` on the header (absent header reads
as the empty string), group 1 on a match, else the fallback name. -/
def cd_filename (cd : Option String) (fallback : String) : String :=
  match cd with
  | none => fallback
  | some h =>
    match scanCdFilename h.data with
    | some g => String.mk g
    | none => fallback

/-- Association-list filesystem: destination filename to file content. -/
def fsHasFile (fs : List (String × Nat)) (f : String) : Bool :=
  fs.any (·.1 = f)

namespace CiviFetch

/-- Result of one `download_with_progress` call of `CLI/CiviFetch.py`: the
returned filename (`None` after exhausted retries), the filesystem after
the call, and the backoff sleeps performed. -/
structure DlResult where
  saved : Option String
  fs : List (String × Nat)
  sleeps : List Nat
deriving DecidableEq

/-- The attempt loop of `CiviFetch.download_with_progress` (lines 44-76),
`for attempt in range(1, 6)`: on each attempt the request is made first,
the filename is resolved from the header, and only then the existing-file
check runs — if the destination exists the function returns the filename
immediately (same return value as a fresh success).  A mid-stream failure
leaves the partially written file on disk and retries after sleeping
`2 ** (attempt - 1)`. -/
def download_with_progress_loop (tr : Nat → DlEvent) (fallback : String) :
    Nat → Nat → List (String × Nat) → List Nat → DlResult
  | 0, _, fs, sleeps => ⟨none, fs, sleeps⟩
  | fuel + 1, att, fs, sleeps =>
    match tr att with
    | .httpErr =>
      download_with_progress_loop tr fallback fuel (att + 1) fs
        (sleeps ++ [2 ^ (att - 1)])
    | .ok cd content =>
      let fname := cd_filename cd fallback
      if fsHasFile fs fname then ⟨some fname, fs, sleeps⟩
      else ⟨some fname, (fname, content) :: fs, sleeps⟩
    | .streamFail cd written =>
      let fname := cd_filename cd fallback
      if fsHasFile fs fname then ⟨some fname, fs, sleeps⟩
      else
        download_with_progress_loop tr fallback fuel (att + 1)
          ((fname, written) :: fs) (sleeps ++ [2 ^ (att - 1)])

/-- `CiviFetch.download_with_progress` on a transport oracle and an initial
filesystem (the contents of `CivitModels/`). -/
def download_with_progress (tr : Nat → DlEvent) (fallback : String)
    (fs : List (String × Nat)) : DlResult :=
  download_with_progress_loop tr fallback 5 1 fs []

/-- Status recorded by `CiviFetch.main` (lines 399-406) from the return
value of `download_with_progress`: any returned filename becomes a
`Success` row, `None` becomes `Download failed`. -/
def downloadStatus (saved : Option String) : String :=
  match saved with
  | some f => "Success - " ++ f
  | none => "Download failed"

end CiviFetch

namespace GUIApp

/-- Result of one GUI `download_with_progress` call: the message string the
function returns, the filesystem after the call, and the sleeps. -/
structure GuiDlResult where
  message : String
  fs : List (String × Nat)
  sleeps : List Nat
deriving DecidableEq

/-- The attempt loop of the GUI `download_with_progress` (lines 69-112),
`for attempt in range(1, 4)`: same shape as the CLI variant but the
existing-file path returns a distinct "already exists" message while a
fresh transfer returns a "Successfully downloaded" message. -/
def download_with_progress_loop (tr : Nat → DlEvent) (fallback : String) :
    Nat → Nat → List (String × Nat) → List Nat → GuiDlResult
  | 0, _, fs, sleeps => ⟨"Download failed after multiple attempts", fs, sleeps⟩
  | fuel + 1, att, fs, sleeps =>
    match tr att with
    | .httpErr =>
      download_with_progress_loop tr fallback fuel (att + 1) fs
        (sleeps ++ [2 ^ (att - 1)])
    | .ok cd content =>
      let fname := cd_filename cd fallback
      if fsHasFile fs fname then ⟨"File already exists, skipping: " ++ fname, fs, sleeps⟩
      else ⟨"Successfully downloaded: " ++ fname, (fname, content) :: fs, sleeps⟩
    | .streamFail cd written =>
      let fname := cd_filename cd fallback
      if fsHasFile fs fname then ⟨"File already exists, skipping: " ++ fname, fs, sleeps⟩
      else
        download_with_progress_loop tr fallback fuel (att + 1)
          ((fname, written) :: fs) (sleeps ++ [2 ^ (att - 1)])

/-- GUI `download_with_progress` on a transport oracle. -/
def download_with_progress (tr : Nat → DlEvent) (fallback : String)
    (fs : List (String × Nat)) : GuiDlResult :=
  download_with_progress_loop tr fallback 3 1 fs []

/-- Status recorded by `handle_model_download_new` (lines 419-424) from the
message returned by the GUI `download_with_progress`: substring dispatch on
"Successfully" / "already exists". -/
def downloadStatus (filename message : String) : String :=
  if strContains message "Successfully" then "Success - " ++ filename
  else if strContains message "already exists" then "Skipped (Already exists)"
  else "Failed: " ++ message

end GUIApp

/-! ## Gallery pagination engines -/

/-- One gallery item as read from the paginated `images` endpoint:
`img.get('id')` and `img.get('url')`.  `none` models an absent key. -/
structure GalleryItem where
  id : Option Nat
  url : Option String
deriving DecidableEq

/-- One page of the `images` endpoint: the `items` array plus the
`metadata.currentPage` / `metadata.nextPage` fields the GUI reads. -/
structure GalleryPage where
  items : List GalleryItem
  currentPage : Option Nat
  nextPage : Option String
deriving DecidableEq

/-- Python truthiness of `img.get('url')`: falsy when absent or empty. -/
def falsyUrl : Option String → Bool
  | none => true
  | some s => s = ""

/-- Python truthiness of `img.get('id')`: falsy when absent or zero. -/
def falsyId : Option Nat → Bool
  | none => true
  | some i => i = 0

/-- How a gallery walk ended: empty page (`done`), failed page request
(`failedRequest`), or the step budget of the model ran out (`fuelOut`,
never reached by the concrete runs below). -/
inductive WalkOutcome where
  | done
  | failedRequest
  | fuelOut
deriving DecidableEq

namespace GUIApp

/-- Extension inference of the GUI gallery engine (lines 632-638): last
dot-separated part of the URL, lowered, if it exists and has at most 4
characters, else `jpg`; then any `?`/`#` tail is cut; then anything outside
the known-good set collapses to `jpg`. -/
def img_extension (u : String) : String :=
  let parts := pySplitChar '.' u.data
  let e0 :=
    if parts.length > 1 ∧ (parts.getLastD []).length ≤ 4 then
      String.mk ((parts.getLastD []).map Char.toLower)
    else "jpg"
  let e1 := String.mk (e0.data.takeWhile (fun c => c ≠ '?' ∧ c ≠ '#'))
  if e1 ∈ (["jpg", "jpeg", "png", "webp", "gif"] : List String) then e1 else "jpg"

/-- Destination filename of one GUI gallery image (lines 640-642):
`img_<id>.<ext>` passed through the class sanitizer. -/
def img_filename (i : Nat) (u : String) : String :=
  downloader_sanitize_filename ("img_" ++ toString i ++ "." ++ img_extension u)

/-- Mutable state of one GUI gallery walk: the processed-id set, the model
folder contents, the download counter, and (for the proofs) the ordered log
of image ids whose download succeeded. -/
structure GalleryState where
  processed : List Nat
  fs : List String
  total : Nat
  downloadedIds : List Nat
deriving DecidableEq

/-- Per-item processing of the GUI gallery loop (lines 617-671): skip items
with falsy url or id; skip ids already in the processed set; an existing
destination file only marks the id processed; otherwise download — on
success the file is written, the counter increments and the id joins the
processed set; on failure the partial file is removed again (filesystem
unchanged) and the id is not marked processed. -/
def process_gallery_item (dl : GalleryItem → Bool) (st : GalleryState)
    (it : GalleryItem) : GalleryState :=
  if falsyUrl it.url ∨ falsyId it.id then st
  else
    let i := it.id.getD 0
    let u := it.url.getD ""
    if i ∈ st.processed then st
    else
      let fname := img_filename i u
      if fname ∈ st.fs then { st with processed := i :: st.processed }
      else if dl it then
        { processed := i :: st.processed, fs := fname :: st.fs,
          total := st.total + 1, downloadedIds := st.downloadedIds ++ [i] }
      else st

/-- One page of items, folded left like the `for img in images` loop. -/
def process_gallery_page (dl : GalleryItem → Bool) (st : GalleryState)
    (items : List GalleryItem) : GalleryState :=
  items.foldl (process_gallery_item dl) st

/-- The `while True` pagination loop of the GUI `download_gallery`
(lines 601-685) on a page source oracle.  A failed request breaks with a
partial result; an empty `items` list breaks with `done`; otherwise the
page is processed and the next page number is `metadata.currentPage`
(defaulting to the requested page) plus one — the `nextPage` hint is read
but its break is commented out in the source, so it never ends the walk.
Returns the final state, the ordered list of requested page numbers, and
the outcome. -/
def download_gallery_loop (src : Nat → Option GalleryPage) (dl : GalleryItem → Bool) :
    Nat → Nat → GalleryState → GalleryState × List Nat × WalkOutcome
  | 0, _, st => (st, [], .fuelOut)
  | fuel + 1, page, st =>
    match src page with
    | none => (st, [page], .failedRequest)
    | some p =>
      if p.items = [] then (st, [page], .done)
      else
        let st' := process_gallery_page dl st p.items
        let r := download_gallery_loop src dl fuel ((p.currentPage.getD page) + 1) st'
        (r.1, page :: r.2.1, r.2.2)

/-- GUI `download_gallery` from page 1 on an empty model folder. -/
def download_gallery (src : Nat → Option GalleryPage) (dl : GalleryItem → Bool)
    (fuel : Nat) : GalleryState × List Nat × WalkOutcome :=
  download_gallery_loop src dl fuel 1 ⟨[], [], 0, []⟩

end GUIApp

namespace ImgPull

/-- The fixed page size the CLI image tool sends (`'limit': 200`). -/
def pageLimit : Nat := 200

/-- Destination filename of one CLI gallery image (lines 209-212): the
sanitized model name, an underscore, the extension-stripped last URL path
segment (NOT sanitized), and `.png`. -/
def img_filename (model_name : String) (u : String) : String :=
  let base := splitextRoot ((pySplitChar '/' u.data).getLastD [])
  sanitize_filename model_name ++ "_" ++ String.mk base ++ ".png"

/-- Mutable state of one CLI gallery walk: model folder contents, success
and failure counters, and (for the proofs) the ordered log of items whose
download succeeded. -/
structure CliGalleryState where
  fs : List String
  total : Nat
  failed : Nat
  downloadedItems : List GalleryItem
deriving DecidableEq

/-- Per-item processing of the CLI gallery loop (lines 203-226): skip items
with falsy url (the id is never read); skip when the destination file
already exists; otherwise download — `download_image` buffers the body and
writes the file only on success, so a failure leaves the filesystem
unchanged and increments the failure counter. -/
def process_gallery_item (dl : GalleryItem → Bool) (model_name : String)
    (st : CliGalleryState) (it : GalleryItem) : CliGalleryState :=
  if falsyUrl it.url then st
  else
    let u := it.url.getD ""
    let fname := img_filename model_name u
    if fname ∈ st.fs then st
    else if dl it then
      { st with
        fs := fname :: st.fs
        total := st.total + 1
        downloadedItems := st.downloadedItems ++ [it] }
    else { st with failed := st.failed + 1 }

/-- The `while True` pagination loop of `ImgPull.download_gallery`
(lines 191-234): a raised request error breaks out through the outer
`except`; an empty `items` list breaks; after processing, a page with
fewer than `pageLimit` items breaks ("Reached end of gallery"); otherwise
the page number increments. -/
def download_gallery_loop (src : Nat → Option GalleryPage) (dl : GalleryItem → Bool)
    (model_name : String) :
    Nat → Nat → CliGalleryState → CliGalleryState × List Nat × WalkOutcome
  | 0, _, st => (st, [], .fuelOut)
  | fuel + 1, page, st =>
    match src page with
    | none => (st, [page], .failedRequest)
    | some p =>
      if p.items = [] then (st, [page], .done)
      else
        let st' := p.items.foldl (process_gallery_item dl model_name) st
        if p.items.length < pageLimit then (st', [page], .done)
        else
          let r := download_gallery_loop src dl model_name fuel (page + 1) st'
          (r.1, page :: r.2.1, r.2.2)

/-- CLI `download_gallery` from page 1 on an empty model folder. -/
def download_gallery (src : Nat → Option GalleryPage) (dl : GalleryItem → Bool)
    (model_name : String) (fuel : Nat) :
    CliGalleryState × List Nat × WalkOutcome :=
  download_gallery_loop src dl model_name fuel 1 ⟨[], 0, 0, []⟩

end ImgPull

/-! ## Metadata collection and final report assembly -/

/-- The fields both pipelines extract from one model-detail response (name,
tags, the first version's trained words / base model, the first file's
hashes, size and download URL, and the explicit `nsfw` flag).  Defaults of
the `dict.get` calls are taken as already applied. -/
structure MetaInfo where
  name : String
  tags : List String
  trainedWords : List String
  baseModel : String
  sha256 : String
  autov1 : String
  sizeKB : Nat
  nsfw : Bool
  downloadUrl : String
deriving DecidableEq

/-- Two-decimal fixed-point rendering of `num / den` with round-half-even,
matching CPython's `f"{x:.2f}"` on the exact quotient (the double-rounding
of the float division never differs on the KB sizes in range, and no claim
inspects this cell). -/
def formatFixed2 (num den : Nat) : String :=
  let scaled := num * 100
  let q := scaled / den
  let r := scaled % den
  let rounded := if 2 * r > den ∨ (2 * r = den ∧ q % 2 = 1) then q + 1 else q
  toString (rounded / 100) ++ "." ++
    (if rounded % 100 < 10 then "0" else "") ++ toString (rounded % 100)

/-- `f"{file_size/1024:.2f} MB" if file_size else "—"`. -/
def file_size_formatted (sizeKB : Nat) : String :=
  if sizeKB = 0 then "—" else formatFixed2 sizeKB 1024 ++ " MB"

/-- `", ".join(tags) if tags else "—"`. -/
def tagsCell (tags : List String) : String :=
  if tags = [] then "—" else String.intercalate ", " tags

/-- `"; ".join(trigger_words) or "—"` (empty join is falsy). -/
def triggerCell (ws : List String) : String :=
  let s := String.intercalate "; " ws
  if s = "" then "—" else s

/-- One row of the report handed to the spreadsheet sink; the column set of
both pipelines (`S.No`, `Model ID`, ..., `Status`). -/
structure ReportRow where
  sno : Nat
  modelId : String
  modelName : String
  tags : String
  triggerWords : String
  baseModel : String
  sha256 : String
  autov1 : String
  fileSize : String
  nsfw : String
  status : String
deriving DecidableEq

namespace CiviFetch

/-- The metadata row `CiviFetch.main` appends on a successful fetch
(lines 300-316), status `Pending`. -/
def metadataRow (idx : Nat) (model_id : String) (md : MetaInfo) : ReportRow :=
  { sno := idx
    modelId := model_id
    modelName := md.name
    tags := tagsCell md.tags
    triggerWords := triggerCell md.trainedWords
    baseModel := md.baseModel
    sha256 := md.sha256
    autov1 := md.autov1
    fileSize := file_size_formatted md.sizeKB
    nsfw := detect_nsfw_from_tags md.tags md.nsfw
    status := "Pending" }

/-- The row `CiviFetch.main` appends when the metadata fetch raises an
`HTTPError` (lines 320-339). -/
def errorRow (idx : Nat) (model_id : String) : ReportRow :=
  { sno := idx
    modelId := model_id
    modelName := "ERROR - Failed to fetch"
    tags := "—"
    triggerWords := "—"
    baseModel := "—"
    sha256 := "—"
    autov1 := "—"
    fileSize := "—"
    nsfw := "—"
    status := "Failed to fetch metadata" }

/-- One `all_metadata` entry: the visible row plus the hidden underscore
fields used by the download phase. -/
structure CliEntry where
  row : ReportRow
  dlUrl : Option String
  filename : Option String
  isNsfw : Bool
deriving DecidableEq

/-- Phase 1 of `CiviFetch.main` (lines 272-339): one entry per unique model
id, in order, numbering from `idx`; fetch outcomes come from an oracle
(`.error` models the `HTTPError` path). -/
def phase1 (apiKey : String) (fetch : String → Except String MetaInfo) :
    List String → Nat → List CliEntry
  | [], _ => []
  | id :: rest, idx =>
    (match fetch id with
      | .ok md =>
        let nsfwStatus := detect_nsfw_from_tags md.tags md.nsfw
        { row := metadataRow idx id md
          dlUrl := some (md.downloadUrl ++ "?token=" ++ apiKey)
          filename := some (replaceSpaces md.name ++ ".safetensors")
          isNsfw := md.nsfw || nsfwStatus = "NSFW" }
      | .error _ =>
        { row := errorRow idx id, dlUrl := none, filename := none, isNsfw := false })
    :: phase1 apiKey fetch rest (idx + 1)

/-- Phase 2 of `CiviFetch.main` (lines 380-406) for one entry: entries with
no download URL keep their phase-1 status; NSFW entries are skipped when the
global choice forbids them; otherwise the download oracle's returned
filename decides between `Success` and `Download failed`. -/
def phase2Row (downloadNsfw : Bool) (dl : String → Option String)
    (e : CliEntry) : ReportRow :=
  match e.dlUrl with
  | none => e.row
  | some url =>
    if e.isNsfw ∧ ¬downloadNsfw then { e.row with status := "Skipped (NSFW)" }
    else
      match dl url with
      | some f => { e.row with status := "Success - " ++ f }
      | none => { e.row with status := "Download failed" }

/-- The final spreadsheet rows of one CLI run that proceeds to the download
phase: phase 1 over the resolved ids, then the in-place status updates of
phase 2. -/
def final_report (apiKey : String) (fetch : String → Except String MetaInfo)
    (ids : List String) (downloadNsfw : Bool) (dl : String → Option String) :
    List ReportRow :=
  (phase1 apiKey fetch ids 1).map (phase2Row downloadNsfw dl)

end CiviFetch

namespace GUIApp

/-- The metadata row built by `handle_model_download_new` (lines 314-330),
status `Pending`; identical column recipe to the CLI but with the GUI
classifier. -/
def metadataRow (idx : Nat) (model_id : String) (md : MetaInfo) : ReportRow :=
  { sno := idx
    modelId := model_id
    modelName := md.name
    tags := tagsCell md.tags
    triggerWords := triggerCell md.trainedWords
    baseModel := md.baseModel
    sha256 := md.sha256
    autov1 := md.autov1
    fileSize := file_size_formatted md.sizeKB
    nsfw := detect_nsfw_from_tags md.tags md.nsfw
    status := "Pending" }

/-- The row the GUI appends when the fetch raises (lines 350-363); the
status carries the exception text. -/
def errorRow (idx : Nat) (model_id : String) (msg : String) : ReportRow :=
  { sno := idx
    modelId := model_id
    modelName := "ERROR - Failed to fetch"
    tags := "—"
    triggerWords := "—"
    baseModel := "—"
    sha256 := "—"
    autov1 := "—"
    fileSize := "—"
    nsfw := "—"
    status := "Failed: " ++ msg }

/-- One GUI model entry with its hidden fields (`_download_url`,
`_filename`, `_is_nsfw`; the last is stored but never read back). -/
structure GuiEntry where
  row : ReportRow
  dlUrl : String
  filename : String
  isNsfw : Bool
deriving DecidableEq

/-- Phase 1 of `handle_model_download_new` (lines 289-368): builds
`all_metadata` (visible rows), `valid_models` and `nsfw_models` in input
order.  An NSFW-classified model joins `all_metadata` ONLY via the final
`nsfw_models` extend, which runs only when NSFW downloads are enabled; with
them disabled it is marked `Skipped (NSFW)` but lands in no report list. -/
def phase1 (apiKey : String) (fetch : String → Except String MetaInfo)
    (downloadNsfw : Bool) :
    List String → Nat → List ReportRow × List GuiEntry × List GuiEntry
  | [], _ => ([], [], [])
  | id :: rest, idx =>
    let r := phase1 apiKey fetch downloadNsfw rest (idx + 1)
    match fetch id with
    | .error msg => (errorRow idx id msg :: r.1, r.2.1, r.2.2)
    | .ok md =>
      let nsfwStatus := detect_nsfw_from_tags md.tags md.nsfw
      let entry : GuiEntry :=
        { row := metadataRow idx id md
          dlUrl := md.downloadUrl ++ "?token=" ++ apiKey
          filename := sanitize_filename (md.name ++ ".safetensors")
          isNsfw := md.nsfw || nsfwStatus = "NSFW" }
      if nsfwStatus = "NSFW" then
        if downloadNsfw then (r.1, entry :: r.2.1, entry :: r.2.2)
        else
          (r.1, r.2.1,
            { entry with row := { entry.row with status := "Skipped (NSFW)" } } :: r.2.2)
      else (entry.row :: r.1, entry :: r.2.1, r.2.2)

/-- Phase 2 status of one valid GUI entry (lines 407-424): the message the
download oracle returns for the entry's URL, dispatched on substrings. -/
def phase2Status (dlMsg : String → String) (e : GuiEntry) : String :=
  downloadStatus e.filename (dlMsg e.dlUrl)

/-- The final report rows of one GUI run: phase 1, the conditional
`nsfw_models` extend, the early exit when no valid models remain, else the
phase-2 status updates applied through the shared row objects (identified
by their unique sequence numbers). -/
def final_report (apiKey : String) (fetch : String → Except String MetaInfo)
    (ids : List String) (downloadNsfw : Bool) (dlMsg : String → String) :
    List ReportRow :=
  let r := phase1 apiKey fetch downloadNsfw ids 1
  let allRows := r.1 ++ (if downloadNsfw then r.2.2.map (fun e => e.row) else [])
  if r.2.1 = [] then allRows
  else
    allRows.map fun row =>
      match r.2.1.find? (fun e => e.row.sno = row.sno) with
      | some e => { row with status := phase2Status dlMsg e }
      | none => row

end GUIApp

namespace GUIApp

/-- The per-model image folder name of the GUI gallery engine
(lines 588-592): sanitized model name, `_(ID_<modelId>)`, and an optional
`_VerID_<versionId>` suffix. -/
def model_folder_name (model_name model_id : String) (version_id : Option String) : String :=
  let base := downloader_sanitize_filename model_name ++ "_(ID_" ++ model_id ++ ")"
  match version_id with
  | some v => base ++ "_VerID_" ++ v
  | none => base

end GUIApp

/-- Terminal status of one CLI model id as a function of the fetch and
download oracles — the value `CiviFetch.final_report` assigns to that id's
row (metadata failure, NSFW skip, download success or download failure). -/
def cliExpectedStatus (apiKey : String) (fetch : String → Except String MetaInfo)
    (downloadNsfw : Bool) (dl : String → Option String) (id : String) : String :=
  match fetch id with
  | .error _ => "Failed to fetch metadata"
  | .ok md =>
    if (md.nsfw || CiviFetch.detect_nsfw_from_tags md.tags md.nsfw = "NSFW") ∧ ¬downloadNsfw
    then "Skipped (NSFW)"
    else
      match dl (md.downloadUrl ++ "?token=" ++ apiKey) with
      | some f => "Success - " ++ f
      | none => "Download failed"

/-! ## Concrete scenario fixtures (the inputs named by the claims) -/

/-- An item with neither id nor url: skipped by both engines' guards, used
as padding to fill pages up to the page limit. -/
def padGalleryItem : GalleryItem := ⟨none, none⟩

/-- Three full pages (the GUI page limit is 100) followed by an empty page. -/
def guiFullPagesSrc : Nat → Option GalleryPage := fun p =>
  if p = 4 then some ⟨[], none, none⟩
  else some ⟨List.replicate 100 padGalleryItem, none, none⟩

/-- Three full pages (the CLI page limit is 200) followed by an empty page. -/
def cliFullPagesSrc : Nat → Option GalleryPage := fun p =>
  if p = 4 then some ⟨[], none, none⟩
  else some ⟨List.replicate 200 padGalleryItem, none, none⟩

/-- A nonempty partial first page (1 item, below the 200 limit). -/
def cliPartialPage : GalleryPage := ⟨[⟨some 7, some "https://e/a.png"⟩], none, none⟩

/-- Source giving the partial page first and full pages afterwards. -/
def cliPartialSrc : Nat → Option GalleryPage := fun p =>
  if p = 1 then some cliPartialPage
  else some ⟨List.replicate 200 padGalleryItem, none, none⟩

/-- Overlap fixture for the GUI: pages `[A, B]`, `[B, C]`, `[]` — the item
with id 2 appears on both consecutive pages. -/
def guiOverlapSrc : Nat → Option GalleryPage := fun p =>
  if p = 1 then some ⟨[⟨some 1, some "https://e/a.jpg"⟩, ⟨some 2, some "https://e/b.jpg"⟩], none, none⟩
  else if p = 2 then some ⟨[⟨some 2, some "https://e/b.jpg"⟩, ⟨some 3, some "https://e/c.jpg"⟩], none, none⟩
  else some ⟨[], none, none⟩

/-- The same gallery item (id 7, one url) appearing on two consecutive full
CLI pages — the usual API pagination overlap. -/
def cliOverlapSamePage1 : GalleryPage :=
  ⟨List.replicate 199 padGalleryItem ++ [⟨some 7, some "https://e/a.png"⟩], none, none⟩

/-- Source repeating the identical item on pages 1 and 2, then ending. -/
def cliOverlapSameSrc : Nat → Option GalleryPage := fun p =>
  if p = 1 ∨ p = 2 then some cliOverlapSamePage1
  else some ⟨[], none, none⟩

/-- One image identity (id 7) appearing on two consecutive full CLI pages
under two different urls. -/
def cliOverlapDistinctSrc : Nat → Option GalleryPage := fun p =>
  if p = 1 then some ⟨List.replicate 199 padGalleryItem ++ [⟨some 7, some "https://e/a.png"⟩], none, none⟩
  else if p = 2 then some ⟨List.replicate 199 padGalleryItem ++ [⟨some 7, some "https://e/b.png"⟩], none, none⟩
  else some ⟨[], none, none⟩

/-- A single-page source whose item url carries a query suffix with no dot
in the last path segment. -/
def cliQuerySrc : Nat → Option GalleryPage := fun p =>
  if p = 1 then some ⟨[⟨some 7, some "https://e/x?y"⟩], none, none⟩
  else some ⟨[], none, none⟩

/-- Transport returning 429 with `Retry-After: 2` twice, then 200 with
payload 77 — the claim C4/C5 scenario. -/
def retryAfterTransport : Nat → TEvent := fun i =>
  if i < 2 then .resp 429 (some 2) 0 else .resp 200 none 77

/-- Transport returning 429 WITHOUT a `Retry-After` header twice, then 200. -/
def noHeaderTransport : Nat → TEvent := fun i =>
  if i < 2 then .resp 429 none 0 else .resp 200 none 77

/-- Transport answering 401 Unauthorized to every request. -/
def alwaysUnauthorizedTransport : Nat → TEvent := fun _ => .resp 401 none 0

/-- Download transport that always streams the full body (content 5),
without a `content-disposition` header. -/
def okTransport : Nat → DlEvent := fun _ => DlEvent.ok none 5

/-- Download transport whose first attempt dies mid-stream after writing
content 3, and whose second attempt would stream the full content 9. -/
def failThenOkTransport : Nat → DlEvent := fun a =>
  if a = 1 then DlEvent.streamFail none 3 else DlEvent.ok none 9

/-- A plain SFW model metadata record. -/
def sfwMeta : MetaInfo :=
  ⟨"Model A", ["portrait"], ["w"], "SDXL", "h1", "h2", 2048, false, "https://d/a"⟩

/-- A model metadata record carrying an `nsfw` tag. -/
def nsfwMeta : MetaInfo :=
  ⟨"Model N", ["nsfw"], [], "SDXL", "h1", "h2", 2048, false, "https://d/n"⟩

/-- Fetch oracle for the batch-resilience scenario: id "2" yields a 404
error, every other id yields `sfwMeta`. -/
def fetchWith404 : String → Except String MetaInfo := fun id =>
  if id = "2" then .error "404 Client Error" else .ok sfwMeta

/-- Fetch oracle returning the NSFW-tagged model for every id. -/
def fetchNsfwOnly : String → Except String MetaInfo := fun _ => .ok nsfwMeta

/-- CLI download oracle: every download saves `f.safetensors`. -/
def dlNameOracle : String → Option String := fun _ => some "f.safetensors"

/-- GUI download oracle: every download reports a success message. -/
def guiDlMsgOracle : String → String := fun _ => "Successfully downloaded: x"

/-! ## Helper lemmas -/

lemma firstSeenDedup_nil : firstSeenDedup [] = [] := by
  rw [firstSeenDedup]

lemma firstSeenDedup_cons (a : String) (l : List String) :
    firstSeenDedup (a :: l) = a :: firstSeenDedup (l.filter (· ≠ a)) := by
  rw [firstSeenDedup]

lemma civi_resolveLoop_eq : ∀ (l : List String) (seen : List String),
    CiviFetch.resolveLoop seen l =
      firstSeenDedup ((l.map CiviFetch.extract_model_id).filter (fun x => decide (x ∉ seen))) := by
  intro l
  induction l with
  | nil => intro seen; simp [CiviFetch.resolveLoop, firstSeenDedup_nil]
  | cons e rest ih =>
    intro seen
    by_cases h : CiviFetch.extract_model_id e ∈ seen
    · simp only [CiviFetch.resolveLoop, h, if_true, List.map_cons, List.filter_cons]
      simp only [h, not_true_eq_false, decide_False, ite_false, if_neg]
      exact ih seen
    · simp only [CiviFetch.resolveLoop, h, if_false, List.map_cons, List.filter_cons]
      simp only [h, not_false_eq_true, decide_True, if_pos]
      rw [firstSeenDedup_cons]
      congr 1
      rw [ih (CiviFetch.extract_model_id e :: seen), List.filter_filter]
      have hf : (fun x => decide (x ∉ CiviFetch.extract_model_id e :: seen)) =
          (fun a => decide (a ≠ CiviFetch.extract_model_id e) && decide (a ∉ seen)) := by
        funext x
        by_cases h1 : x = CiviFetch.extract_model_id e <;> by_cases h2 : x ∈ seen <;>
          simp [h1, h2]
      rw [hf]

lemma firstSeenDedup_length (l : List String) :
    (firstSeenDedup l).length = l.toFinset.card := by
  induction l using firstSeenDedup.induct with
  | case1 => simp [firstSeenDedup_nil]
  | case2 a l ih =>
    rw [firstSeenDedup_cons]
    simp only [List.length_cons, List.toFinset_cons]
    rw [ih]
    have hft : (l.filter (· ≠ a)).toFinset = l.toFinset.erase a := by
      ext x
      simp [List.mem_toFinset, List.mem_filter, Finset.mem_erase, and_comm]
    rw [hft]
    by_cases ha : a ∈ l.toFinset
    · rw [Finset.insert_eq_self.mpr ha, Finset.card_erase_add_one ha]
    · rw [Finset.erase_eq_of_not_mem ha, Finset.card_insert_of_not_mem ha]

lemma gui_extract_eq_cli (e : String) :
    GUIApp.extract_model_id e = CiviFetch.extract_model_id e := rfl

lemma gui_resolveLoop_eq_cli : ∀ (l : List String) (seen : List String),
    GUIApp.resolveLoop seen l = CiviFetch.resolveLoop seen l := by
  intro l
  induction l with
  | nil => intro seen; rfl
  | cons e rest ih =>
    intro seen
    simp only [GUIApp.resolveLoop, CiviFetch.resolveLoop, gui_extract_eq_cli]
    by_cases h : CiviFetch.extract_model_id e ∈ seen <;> simp [h, ih]

lemma civi_resolve_eq (entries : List String) :
    CiviFetch.resolve entries = firstSeenDedup (entries.map CiviFetch.extract_model_id) := by
  rw [CiviFetch.resolve, civi_resolveLoop_eq]
  congr 1
  simp [List.filter_eq_self]

/-! ## Claim theorems -/

/-- C1 counterexample: the claim states the classification falls back to
NSFW whenever the explicit flag is set and no tag matches, for EVERY tag
list; but the CLI `detect_nsfw_from_tags` returns SFW for the empty tag
list even with the flag set, whereas the claimed algorithm (and its
spec-worded form `nsfwSpecClassify`) yields NSFW there. -/
theorem C1_counterexample :
    CiviFetch.detect_nsfw_from_tags [] true = "SFW" ∧
    nsfwSpecClassify [] true = "NSFW" := by
  decide

/-- C1 amended: the GUI classifier agrees with the claimed algorithm on
every input; the CLI classifier agrees on every NONEMPTY tag list but
returns SFW on an empty tag list regardless of the flag; the three
enumerated examples hold for both implementations. -/
theorem C1_amended :
    (∀ tags flag, GUIApp.detect_nsfw_from_tags tags flag = nsfwSpecClassify tags flag) ∧
    (∀ tags flag, tags ≠ [] →
      CiviFetch.detect_nsfw_from_tags tags flag = nsfwSpecClassify tags flag) ∧
    (∀ flag, CiviFetch.detect_nsfw_from_tags [] flag = "SFW") ∧
    CiviFetch.detect_nsfw_from_tags ["photorealistic", "NSFW-art"] false = "NSFW" ∧
    GUIApp.detect_nsfw_from_tags ["photorealistic", "NSFW-art"] false = "NSFW" ∧
    CiviFetch.detect_nsfw_from_tags [] false = "SFW" ∧
    GUIApp.detect_nsfw_from_tags [] false = "SFW" ∧
    CiviFetch.detect_nsfw_from_tags ["portrait"] true = "NSFW" ∧
    GUIApp.detect_nsfw_from_tags ["portrait"] true = "NSFW" := by
  refine ⟨?_, ?_, ?_, ?_, ?_, ?_, ?_, ?_, ?_⟩
  · intro tags flag
    cases flag <;> cases tags <;>
      simp [GUIApp.detect_nsfw_from_tags, nsfwSpecClassify]
  · intro tags flag h
    cases tags with
    | nil => exact absurd rfl h
    | cons a l =>
      cases flag <;> simp [CiviFetch.detect_nsfw_from_tags, nsfwSpecClassify]
  · intro flag; rfl
  all_goals decide

/-- C1 witness: the amended theorem applied at a concrete input with a
nonempty tag list. -/
theorem C1_amended_witness :
    CiviFetch.detect_nsfw_from_tags ["portrait"] true =
      nsfwSpecClassify ["portrait"] true :=
  C1_amended.2.1 ["portrait"] true (by decide)

/-- C9: for every non-empty entry list, both resolvers return exactly the
distinct extracted model IDs in first-seen order (the spec-worded
`firstSeenDedup` of the extracted-ID list), and the reported unique count
equals the cardinality of the set of extracted model IDs. -/
theorem C9_resolver_dedup (entries : List String) (_hne : entries ≠ []) :
    CiviFetch.resolve entries = firstSeenDedup (entries.map CiviFetch.extract_model_id) ∧
    GUIApp.resolve entries = firstSeenDedup (entries.map GUIApp.extract_model_id) ∧
    (CiviFetch.resolve entries).length =
      (entries.map CiviFetch.extract_model_id).toFinset.card ∧
    (GUIApp.resolve entries).length =
      (entries.map GUIApp.extract_model_id).toFinset.card := by
  have hg : GUIApp.resolve entries = CiviFetch.resolve entries := by
    rw [GUIApp.resolve, CiviFetch.resolve, gui_resolveLoop_eq_cli]
  have hx : entries.map GUIApp.extract_model_id = entries.map CiviFetch.extract_model_id := by
    simp [gui_extract_eq_cli]
  refine ⟨civi_resolve_eq entries, ?_, ?_, ?_⟩
  · rw [hg, hx]; exact civi_resolve_eq entries
  · rw [civi_resolve_eq entries, firstSeenDedup_length]
  · rw [hg, hx, civi_resolve_eq entries, firstSeenDedup_length]

/-- C9 witness: the resolver theorem applied to a concrete entry list with
an interleaved duplicate. -/
theorem C9_resolver_dedup_witness :
    CiviFetch.resolve ["https://civitai.com/models/10", "11", "10"] =
      firstSeenDedup
        (["https://civitai.com/models/10", "11", "10"].map CiviFetch.extract_model_id) :=
  (C9_resolver_dedup ["https://civitai.com/models/10", "11", "10"] (by decide)).1

lemma cli_api_sleeps_aux (tr : Nat → TEvent) : ∀ (fuel req : Nat) (log : List (TEvent × Nat)),
    (∀ e w, (e, w) ∈ log → w = ImgPull.expectedSleep e) →
    ∀ e w, (e, w) ∈ (ImgPull.make_api_request_loop tr fuel req log).sleeps →
      w = ImgPull.expectedSleep e := by
  intro fuel
  induction fuel with
  | zero => intro req log hlog e w hw; exact hlog e w hw
  | succ fuel ih =>
    intro req log hlog e w hw
    rw [ImgPull.make_api_request_loop] at hw
    cases htr : tr req with
    | resp s ra b =>
      simp only [htr] at hw
      by_cases h200 : s = 200
      · rw [if_pos h200] at hw; exact hlog e w hw
      · rw [if_neg h200] at hw
        by_cases hrl : s = 429 ∨ s = 524
        · rw [if_pos hrl] at hw
          refine ih (req + 1) _ ?_ e w hw
          intro e' w' hm
          rcases List.mem_append.mp hm with hm | hm
          · exact hlog e' w' hm
          · simp only [List.mem_singleton, Prod.mk.injEq] at hm
            rw [hm.1, hm.2]
            simp [ImgPull.expectedSleep, hrl]
        · rw [if_neg hrl] at hw
          by_cases h404 : s = 404
          · rw [if_pos h404] at hw; exact hlog e w hw
          · rw [if_neg h404] at hw
            by_cases hf : fuel = 0
            · rw [if_pos hf] at hw; exact hlog e w hw
            · rw [if_neg hf] at hw
              refine ih (req + 1) _ ?_ e w hw
              intro e' w' hm
              rcases List.mem_append.mp hm with hm | hm
              · exact hlog e' w' hm
              · simp only [List.mem_singleton, Prod.mk.injEq] at hm
                rw [hm.1, hm.2]
                simp [ImgPull.expectedSleep, hrl]
    | connErr =>
      simp only [htr] at hw
      by_cases hf : fuel = 0
      · rw [if_pos hf] at hw; exact hlog e w hw
      · rw [if_neg hf] at hw
        refine ih (req + 1) _ ?_ e w hw
        intro e' w' hm
        rcases List.mem_append.mp hm with hm | hm
        · exact hlog e' w' hm
        · simp only [List.mem_singleton, Prod.mk.injEq] at hm
          rw [hm.1, hm.2]
          simp [ImgPull.expectedSleep]

lemma gui_api_sleeps_aux (tr : Nat → TEvent) : ∀ (fuel req : Nat) (log : List (TEvent × Nat)),
    fuel ≤ GUIApp.MAX_RETRIES →
    ∃ tail, (GUIApp.make_api_request_loop tr fuel req log).sleeps = log ++ tail ∧
      ∀ i e w, tail.get? i = some (e, w) →
        w = GUIApp.expectedSleep e (GUIApp.MAX_RETRIES - fuel + i + 1) := by
  intro fuel
  induction fuel with
  | zero =>
    intro req log _
    refine ⟨[], by simp [GUIApp.make_api_request_loop], ?_⟩
    intro i e w h
    simp at h
  | succ fuel ih =>
    intro req log hle
    have hle' : fuel ≤ GUIApp.MAX_RETRIES := Nat.le_of_succ_le hle
    have hidx : ∀ i : Nat,
        GUIApp.MAX_RETRIES - fuel + i + 1 = GUIApp.MAX_RETRIES - (fuel + 1) + (i + 1) + 1 := by
      intro i
      have : fuel + 1 ≤ GUIApp.MAX_RETRIES := hle
      omega
    rw [GUIApp.make_api_request_loop]
    cases htr : tr req with
    | resp s ra b =>
      simp only [htr]
      by_cases h200 : s = 200
      · rw [if_pos h200]
        refine ⟨[], by simp, ?_⟩
        intro i e w h; simp at h
      · rw [if_neg h200]
        by_cases hauth : s = 401 ∨ s = 403
        · rw [if_pos hauth]
          refine ⟨[], by simp, ?_⟩
          intro i e w h; simp at h
        · rw [if_neg hauth]
          by_cases hrl : s = 429 ∨ s = 524
          · rw [if_pos hrl]
            obtain ⟨tail, hsl, hprop⟩ :=
              ih (req + 1) (log ++ [(.resp s ra b, ra.getD GUIApp.RETRY_DELAY)]) hle'
            refine ⟨(.resp s ra b, ra.getD GUIApp.RETRY_DELAY) :: tail, ?_, ?_⟩
            · rw [hsl, List.append_assoc]; rfl
            · intro i e w h
              cases i with
              | zero =>
                simp only [List.get?_cons_zero, Option.some.injEq, Prod.mk.injEq] at h
                rw [← h.1, ← h.2]
                simp [GUIApp.expectedSleep, hrl]
              | succ i =>
                rw [← hidx i]
                exact hprop i e w h
          · rw [if_neg hrl]
            by_cases h5 : 500 ≤ s
            · rw [if_pos h5]
              obtain ⟨tail, hsl, hprop⟩ :=
                ih (req + 1)
                  (log ++ [(.resp s ra b, GUIApp.RETRY_DELAY * (GUIApp.MAX_RETRIES - fuel))]) hle'
              refine ⟨(.resp s ra b, GUIApp.RETRY_DELAY * (GUIApp.MAX_RETRIES - fuel)) :: tail, ?_, ?_⟩
              · rw [hsl, List.append_assoc]; rfl
              · intro i e w h
                cases i with
                | zero =>
                  simp only [List.get?_cons_zero, Option.some.injEq, Prod.mk.injEq] at h
                  rw [← h.1, ← h.2]
                  have hk : GUIApp.MAX_RETRIES - (fuel + 1) + 0 + 1 = GUIApp.MAX_RETRIES - fuel := by
                    have : fuel + 1 ≤ GUIApp.MAX_RETRIES := hle
                    omega
                  rw [hk]
                  simp [GUIApp.expectedSleep, hrl]
                | succ i =>
                  rw [← hidx i]
                  exact hprop i e w h
            · rw [if_neg h5]
              refine ⟨[], by simp, ?_⟩
              intro i e w h; simp at h
    | connErr =>
      simp only [htr]
      obtain ⟨tail, hsl, hprop⟩ :=
        ih (req + 1) (log ++ [(.connErr, GUIApp.RETRY_DELAY * (GUIApp.MAX_RETRIES - fuel))]) hle'
      refine ⟨(.connErr, GUIApp.RETRY_DELAY * (GUIApp.MAX_RETRIES - fuel)) :: tail, ?_, ?_⟩
      · rw [hsl, List.append_assoc]; rfl
      · intro i e w h
        cases i with
        | zero =>
          simp only [List.get?_cons_zero, Option.some.injEq, Prod.mk.injEq] at h
          rw [← h.1, ← h.2]
          have hk : GUIApp.MAX_RETRIES - (fuel + 1) + 0 + 1 = GUIApp.MAX_RETRIES - fuel := by
            have : fuel + 1 ≤ GUIApp.MAX_RETRIES := hle
            omega
          rw [hk]
          simp [GUIApp.expectedSleep]
        | succ i =>
          rw [← hidx i]
          exact hprop i e w h

/-- C4 counterexample: the claim says a retryable failure without a
`Retry-After` header waits base delay times `2^(attempt-1)`; the CLI image
client given two header-less 429 responses waits the fixed `RETRY_DELAY`
both times ([3, 3]) instead of the claimed exponential schedule [3, 6],
while still making exactly 3 requests and returning the payload. -/
theorem C4_counterexample :
    (ImgPull.make_api_request noHeaderTransport).sleeps.map Prod.snd = [3, 3] ∧
    (ImgPull.make_api_request noHeaderTransport).requests = 3 ∧
    (ImgPull.make_api_request noHeaderTransport).result = ImgPull.ApiOutcome.ok 77 ∧
    ¬((ImgPull.make_api_request noHeaderTransport).sleeps.map Prod.snd =
      [ImgPull.RETRY_DELAY * 2 ^ 0, ImgPull.RETRY_DELAY * 2 ^ 1]) := by
  decide

/-- C4 amended: both clients honor a supplied `Retry-After` exactly on
429/524; without one, the waits are NOT exponential — the CLI image client
always waits the fixed `RETRY_DELAY` and the GUI waits `RETRY_DELAY` for
header-less 429/524 and the linear `RETRY_DELAY * k` for the k-th retried
5xx/connection failure.  The 429-with-`Retry-After: 2`-twice-then-200
scenario holds in both clients: exactly 3 requests, waits of 2 s between
them, and the success payload returned. -/
theorem C4_amended :
    (∀ tr e w, (e, w) ∈ (ImgPull.make_api_request tr).sleeps → w = ImgPull.expectedSleep e) ∧
    (∀ tr i e w, (GUIApp.make_api_request tr).sleeps.get? i = some (e, w) →
      w = GUIApp.expectedSleep e (i + 1)) ∧
    ImgPull.make_api_request retryAfterTransport =
      ⟨.ok 77, 3, [(.resp 429 (some 2) 0, 2), (.resp 429 (some 2) 0, 2)]⟩ ∧
    GUIApp.make_api_request retryAfterTransport =
      ⟨some 77, .success, 3, [(.resp 429 (some 2) 0, 2), (.resp 429 (some 2) 0, 2)]⟩ := by
  refine ⟨?_, ?_, by decide, by decide⟩
  · intro tr e w hw
    exact cli_api_sleeps_aux tr ImgPull.MAX_RETRIES 0 [] (by intro e' w' h; simp at h) e w hw
  · intro tr i e w h
    obtain ⟨tail, hsl, hprop⟩ :=
      gui_api_sleeps_aux tr GUIApp.MAX_RETRIES 0 [] (le_refl _)
    rw [GUIApp.make_api_request, hsl, List.nil_append] at h
    have := hprop i e w h
    simpa using this

/-- C4 witness: the CLI universal backoff characterization applied at the
429-with-header scenario's logged sleep. -/
theorem C4_amended_witness :
    (2 : Nat) = ImgPull.expectedSleep (.resp 429 (some 2) 0) :=
  C4_amended.1 retryAfterTransport (.resp 429 (some 2) 0) 2 (by decide)

/-- C5 counterexample: the claim says a 401 response fails immediately with
no retry (1 request) in every client; the CLI image client retries 401 like
any generic failure and makes 5 requests before raising the generic
retry-exhausted `ConnectionError`. -/
theorem C5_counterexample :
    (ImgPull.make_api_request alwaysUnauthorizedTransport).requests = 5 ∧
    (ImgPull.make_api_request alwaysUnauthorizedTransport).result =
      ImgPull.ApiOutcome.connFail ∧
    (5 : Nat) ≠ 1 := by
  decide

/-- C5 amended: the GUI client fails immediately on 401/403 with a distinct
auth-error branch and no retry (1 request, no sleeps), and on 404 with the
client-error branch, no retry; the CLI image client fails immediately and
distinctly on 404 (`ValueError`, 1 request) but retries 401/403 like
generic failures up to the 5-attempt cap before failing generically. -/
theorem C5_amended :
    (∀ tr ra b, tr 0 = TEvent.resp 401 ra b →
      GUIApp.make_api_request tr = ⟨none, .authError, 1, []⟩) ∧
    (∀ tr ra b, tr 0 = TEvent.resp 403 ra b →
      GUIApp.make_api_request tr = ⟨none, .authError, 1, []⟩) ∧
    (∀ tr ra b, tr 0 = TEvent.resp 404 ra b →
      GUIApp.make_api_request tr = ⟨none, .clientError, 1, []⟩) ∧
    (∀ tr ra b, tr 0 = TEvent.resp 404 ra b →
      ImgPull.make_api_request tr = ⟨.notFound, 1, []⟩) ∧
    GUIApp.GuiExit.authError ≠ GUIApp.GuiExit.clientError ∧
    GUIApp.GuiExit.authError ≠ GUIApp.GuiExit.maxRetries ∧
    ImgPull.make_api_request alwaysUnauthorizedTransport =
      ⟨.connFail, 5,
        [(.resp 401 none 0, 3), (.resp 401 none 0, 3),
         (.resp 401 none 0, 3), (.resp 401 none 0, 3)]⟩ := by
  refine ⟨?_, ?_, ?_, ?_, by decide, by decide, by decide⟩
  · intro tr ra b h
    simp [GUIApp.make_api_request, GUIApp.MAX_RETRIES, GUIApp.make_api_request_loop, h]
  · intro tr ra b h
    simp [GUIApp.make_api_request, GUIApp.MAX_RETRIES, GUIApp.make_api_request_loop, h]
  · intro tr ra b h
    simp [GUIApp.make_api_request, GUIApp.MAX_RETRIES, GUIApp.make_api_request_loop, h]
  · intro tr ra b h
    simp [ImgPull.make_api_request, ImgPull.MAX_RETRIES, ImgPull.make_api_request_loop, h]

/-- C5 witness: the GUI immediate-auth-failure part applied to the constant
401 transport. -/
theorem C5_amended_witness :
    GUIApp.make_api_request alwaysUnauthorizedTransport = ⟨none, .authError, 1, []⟩ :=
  C5_amended.1 alwaysUnauthorizedTransport none 0 rfl

/-- C6 counterexample: the claim says a second call against an existing
destination is reported with a distinct SkippedExisting status, not
Success; in the CLI the second call returns the same filename value as the
first and `main` records the identical "Success - ..." status for both
(the skip exists only as a printed line), though the transfer is indeed
skipped and the file content unchanged. -/
theorem C6_counterexample :
    CiviFetch.downloadStatus
        (CiviFetch.download_with_progress okTransport "Model.safetensors" []).saved =
      "Success - Model.safetensors" ∧
    (CiviFetch.download_with_progress okTransport "Model.safetensors" []).fs =
      [("Model.safetensors", 5)] ∧
    CiviFetch.downloadStatus
        (CiviFetch.download_with_progress okTransport "Model.safetensors"
          [("Model.safetensors", 5)]).saved =
      "Success - Model.safetensors" ∧
    (CiviFetch.download_with_progress okTransport "Model.safetensors"
        [("Model.safetensors", 5)]).fs = [("Model.safetensors", 5)] := by
  decide

/-- C6 amended: when the destination already exists the CLI download skips
the transfer and leaves the filesystem unchanged (no overwrite, content and
size intact) but reports it through the same Success status as a fresh
download; the GUI variant behaves as the claim states — calling it twice
against the same destination yields the Success status then the distinct
"Skipped (Already exists)" status with the file unchanged between calls. -/
theorem C6_amended :
    (∀ tr fallback fs cd content, tr 1 = DlEvent.ok cd content →
      fsHasFile fs (cd_filename cd fallback) = true →
      (CiviFetch.download_with_progress tr fallback fs).fs = fs ∧
      (CiviFetch.download_with_progress tr fallback fs).saved =
        some (cd_filename cd fallback)) ∧
    (∀ content : Nat,
      GUIApp.downloadStatus "F.safetensors"
        (GUIApp.download_with_progress (fun _ => DlEvent.ok none content)
          "F.safetensors" []).message = "Success - F.safetensors") ∧
    (∀ content : Nat,
      (GUIApp.download_with_progress (fun _ => DlEvent.ok none content)
        "F.safetensors" []).fs = [("F.safetensors", content)]) ∧
    (∀ content : Nat,
      GUIApp.downloadStatus "F.safetensors"
        (GUIApp.download_with_progress (fun _ => DlEvent.ok none content)
          "F.safetensors" [("F.safetensors", content)]).message =
        "Skipped (Already exists)") ∧
    (∀ content : Nat,
      (GUIApp.download_with_progress (fun _ => DlEvent.ok none content)
        "F.safetensors" [("F.safetensors", content)]).fs =
        [("F.safetensors", content)]) := by
  refine ⟨?_, ?_, ?_, ?_, ?_⟩
  · intro tr fallback fs cd content h hfs
    constructor <;>
      simp [CiviFetch.download_with_progress, CiviFetch.download_with_progress_loop, h, hfs]
  all_goals intro content; rfl

/-- C6 witness: the CLI skip-existing part applied at a concrete
destination that is already on disk. -/
theorem C6_amended_witness :
    (CiviFetch.download_with_progress okTransport "Model.safetensors"
        [("Model.safetensors", 5)]).fs = [("Model.safetensors", 5)] ∧
    (CiviFetch.download_with_progress okTransport "Model.safetensors"
        [("Model.safetensors", 5)]).saved = some (cd_filename none "Model.safetensors") :=
  C6_amended.1 okTransport "Model.safetensors" [("Model.safetensors", 5)] none 5 rfl
    (by decide)

/-- C7: the CLI download engine violates the claim at this input — the
first attempt dies mid-stream leaving a half-written file (content 3 of 9)
on disk, the retry's existing-file check then finds that partial file and
returns the filename, and `main` records the half-written destination as
"Success" exactly as the claim forbids. -/
theorem C7_partial_reported_success :
    (CiviFetch.download_with_progress failThenOkTransport "M.safetensors" []).saved =
      some "M.safetensors" ∧
    CiviFetch.downloadStatus
        (CiviFetch.download_with_progress failThenOkTransport "M.safetensors" []).saved =
      "Success - M.safetensors" ∧
    (CiviFetch.download_with_progress failThenOkTransport "M.safetensors" []).fs =
      [("M.safetensors", 3)] ∧
    (3 : Nat) ≠ 9 := by
  decide

lemma gui_walk_pages (src : Nat → Option GalleryPage) (dl : GalleryItem → Bool) :
    ∀ (fuel page : Nat) (st : GUIApp.GalleryState),
      ((GUIApp.download_gallery_loop src dl fuel page st).2.2 = .done →
        ∃ q pg, (GUIApp.download_gallery_loop src dl fuel page st).2.1.getLast? = some q ∧
          src q = some pg ∧ pg.items = []) ∧
      ((GUIApp.download_gallery_loop src dl fuel page st).2.2 = .failedRequest →
        ∃ q, (GUIApp.download_gallery_loop src dl fuel page st).2.1.getLast? = some q ∧
          src q = none) ∧
      (∀ q ∈ (GUIApp.download_gallery_loop src dl fuel page st).2.1.dropLast,
        ∃ pg, src q = some pg ∧ pg.items ≠ []) := by
  intro fuel
  induction fuel with
  | zero =>
    intro page st
    refine ⟨?_, ?_, ?_⟩ <;> simp [GUIApp.download_gallery_loop]
  | succ fuel ih =>
    intro page st
    rw [GUIApp.download_gallery_loop]
    cases hsrc : src page with
    | none =>
      simp only [hsrc]
      refine ⟨?_, ?_, ?_⟩
      · intro h; simp at h
      · intro _; exact ⟨page, by simp, hsrc⟩
      · simp
    | some p =>
      simp only [hsrc]
      by_cases hi : p.items = []
      · rw [if_pos hi]
        refine ⟨?_, ?_, ?_⟩
        · intro _; exact ⟨page, p, by simp, hsrc, hi⟩
        · intro h; simp at h
        · simp
      · rw [if_neg hi]
        obtain ⟨ih1, ih2, ih3⟩ :=
          ih ((p.currentPage.getD page) + 1) (GUIApp.process_gallery_page dl st p.items)
        refine ⟨?_, ?_, ?_⟩
        · intro h
          simp only at h
          obtain ⟨q, pg, hq, hs, hpg⟩ := ih1 h
          refine ⟨q, pg, ?_, hs, hpg⟩
          simp only
          cases hl : (GUIApp.download_gallery_loop src dl fuel
              ((p.currentPage.getD page) + 1) (GUIApp.process_gallery_page dl st p.items)).2.1 with
          | nil => rw [hl] at hq; simp at hq
          | cons x xs => rw [hl] at hq; rw [List.getLast?_cons_cons]; exact hq
        · intro h
          simp only at h
          obtain ⟨q, hq, hs⟩ := ih2 h
          refine ⟨q, ?_, hs⟩
          simp only
          cases hl : (GUIApp.download_gallery_loop src dl fuel
              ((p.currentPage.getD page) + 1) (GUIApp.process_gallery_page dl st p.items)).2.1 with
          | nil => rw [hl] at hq; simp at hq
          | cons x xs => rw [hl] at hq; rw [List.getLast?_cons_cons]; exact hq
        · intro q hq
          simp only at hq
          cases hl : (GUIApp.download_gallery_loop src dl fuel
              ((p.currentPage.getD page) + 1) (GUIApp.process_gallery_page dl st p.items)).2.1 with
          | nil => rw [hl] at hq; simp at hq
          | cons x xs =>
            rw [hl] at hq
            rcases List.mem_cons.mp hq with hq | hq
            · exact hq ▸ ⟨p, hsrc, hi⟩
            · exact ih3 q (by rw [hl]; exact hq)

lemma cli_walk_pages (src : Nat → Option GalleryPage) (dl : GalleryItem → Bool)
    (name : String) :
    ∀ (fuel page : Nat) (st : ImgPull.CliGalleryState),
      (ImgPull.download_gallery_loop src dl name fuel page st).2.2 = .done →
      ∃ q pg, (ImgPull.download_gallery_loop src dl name fuel page st).2.1.getLast? = some q ∧
        src q = some pg ∧ (pg.items = [] ∨ pg.items.length < ImgPull.pageLimit) := by
  intro fuel
  induction fuel with
  | zero =>
    intro page st h
    simp [ImgPull.download_gallery_loop] at h
  | succ fuel ih =>
    intro page st
    rw [ImgPull.download_gallery_loop]
    cases hsrc : src page with
    | none =>
      simp only [hsrc]
      intro h; simp at h
    | some p =>
      simp only [hsrc]
      by_cases hi : p.items = []
      · rw [if_pos hi]
        intro _
        exact ⟨page, p, by simp, hsrc, Or.inl hi⟩
      · rw [if_neg hi]
        by_cases hlt : p.items.length < ImgPull.pageLimit
        · rw [if_pos hlt]
          intro _
          exact ⟨page, p, by simp, hsrc, Or.inr hlt⟩
        · rw [if_neg hlt]
          intro h
          simp only at h
          obtain ⟨q, pg, hq, hs, hpg⟩ :=
            ih (page + 1) (p.items.foldl (ImgPull.process_gallery_item dl name) st) h
          refine ⟨q, pg, ?_, hs, hpg⟩
          simp only
          cases hl : (ImgPull.download_gallery_loop src dl name fuel (page + 1)
              (p.items.foldl (ImgPull.process_gallery_item dl name) st)).2.1 with
          | nil => rw [hl] at hq; simp at hq
          | cons x xs => rw [hl] at hq; rw [List.getLast?_cons_cons]; exact hq

set_option maxRecDepth 8000 in
/-- C2 counterexample: the claim says the walk terminates exactly when a
page returns zero items or a request fails, and that a partial page never
ends the walk on its own; the CLI image engine given a nonempty partial
first page (1 item, below its 200 limit) and further nonempty pages behind
it issues exactly 1 page request and terminates. -/
theorem C2_counterexample :
    (ImgPull.download_gallery cliPartialSrc (fun _ => true) "m" 10).2.1 = [1] ∧
    (ImgPull.download_gallery cliPartialSrc (fun _ => true) "m" 10).2.2 = .done ∧
    cliPartialSrc 1 = some cliPartialPage ∧
    cliPartialPage.items.length = 1 ∧
    cliPartialPage.items ≠ [] ∧
    cliPartialSrc 2 = some ⟨List.replicate 200 padGalleryItem, none, none⟩ := by
  refine ⟨by decide, by decide, rfl, by decide, by decide, rfl⟩

set_option maxRecDepth 8000 in
/-- C2 amended: the GUI gallery engine terminates exactly on a zero-item
page (`done`) or a failed page request, and every non-final requested page
returned a nonempty page — so partial pages and the absent `nextPage` hint
never end the GUI walk; the CLI image engine terminates on a zero-item
page, a failed request, OR a page below its 200-item limit.  On 3 full
pages followed by an empty page both engines issue exactly the 4 page
requests 1,2,3,4 and finish with `done`. -/
theorem C2_amended :
    (∀ src dl fuel,
      ((GUIApp.download_gallery src dl fuel).2.2 = .done →
        ∃ q pg, (GUIApp.download_gallery src dl fuel).2.1.getLast? = some q ∧
          src q = some pg ∧ pg.items = []) ∧
      ((GUIApp.download_gallery src dl fuel).2.2 = .failedRequest →
        ∃ q, (GUIApp.download_gallery src dl fuel).2.1.getLast? = some q ∧
          src q = none) ∧
      (∀ q ∈ (GUIApp.download_gallery src dl fuel).2.1.dropLast,
        ∃ pg, src q = some pg ∧ pg.items ≠ [])) ∧
    (∀ src dl name fuel,
      (ImgPull.download_gallery src dl name fuel).2.2 = .done →
      ∃ q pg, (ImgPull.download_gallery src dl name fuel).2.1.getLast? = some q ∧
        src q = some pg ∧ (pg.items = [] ∨ pg.items.length < ImgPull.pageLimit)) ∧
    (GUIApp.download_gallery guiFullPagesSrc (fun _ => true) 10).2.1 = [1, 2, 3, 4] ∧
    (GUIApp.download_gallery guiFullPagesSrc (fun _ => true) 10).2.2 = .done ∧
    (ImgPull.download_gallery cliFullPagesSrc (fun _ => true) "m" 10).2.1 = [1, 2, 3, 4] ∧
    (ImgPull.download_gallery cliFullPagesSrc (fun _ => true) "m" 10).2.2 = .done := by
  refine ⟨?_, ?_, by decide, by decide, by decide, by decide⟩
  · intro src dl fuel
    exact gui_walk_pages src dl fuel 1 ⟨[], [], 0, []⟩
  · intro src dl name fuel
    exact cli_walk_pages src dl name fuel 1 ⟨[], 0, 0, []⟩

set_option maxRecDepth 8000 in
/-- C2 witness: the GUI termination characterization applied to the
3-full-pages-then-empty source. -/
theorem C2_amended_witness :
    ∃ q pg,
      (GUIApp.download_gallery guiFullPagesSrc (fun _ => true) 10).2.1.getLast? = some q ∧
      guiFullPagesSrc q = some pg ∧ pg.items = [] :=
  (C2_amended.1 guiFullPagesSrc (fun _ => true) 10).1 (by decide)

lemma gui_item_inv (dl : GalleryItem → Bool) (it : GalleryItem) (st : GUIApp.GalleryState)
    (h1 : st.downloadedIds.Nodup) (h2 : ∀ i ∈ st.downloadedIds, i ∈ st.processed) :
    (GUIApp.process_gallery_item dl st it).downloadedIds.Nodup ∧
    ∀ i ∈ (GUIApp.process_gallery_item dl st it).downloadedIds,
      i ∈ (GUIApp.process_gallery_item dl st it).processed := by
  unfold GUIApp.process_gallery_item
  by_cases hf : falsyUrl it.url = true ∨ falsyId it.id = true
  · rw [if_pos hf]
    exact ⟨h1, h2⟩
  · rw [if_neg hf]
    by_cases hp : it.id.getD 0 ∈ st.processed
    · rw [if_pos hp]; exact ⟨h1, h2⟩
    · rw [if_neg hp]
      by_cases hfs : GUIApp.img_filename (it.id.getD 0) (it.url.getD "") ∈ st.fs
      · rw [if_pos hfs]
        exact ⟨h1, fun j hj => List.mem_cons_of_mem _ (h2 j hj)⟩
      · rw [if_neg hfs]
        by_cases hdl : dl it = true
        · rw [if_pos hdl]
          refine ⟨?_, ?_⟩
          · rw [List.nodup_append]
            refine ⟨h1, List.nodup_singleton _, ?_⟩
            intro j hj hj2
            simp only [List.mem_singleton] at hj2
            exact hp (h2 _ (hj2 ▸ hj))
          · intro j hj
            rcases List.mem_append.mp hj with hj | hj
            · exact List.mem_cons_of_mem _ (h2 j hj)
            · simp only [List.mem_singleton] at hj
              exact hj ▸ List.mem_cons_self _ _
        · rw [if_neg hdl]; exact ⟨h1, h2⟩

lemma gui_page_inv (dl : GalleryItem → Bool) (items : List GalleryItem) :
    ∀ st : GUIApp.GalleryState, st.downloadedIds.Nodup →
      (∀ i ∈ st.downloadedIds, i ∈ st.processed) →
      (GUIApp.process_gallery_page dl st items).downloadedIds.Nodup ∧
      ∀ i ∈ (GUIApp.process_gallery_page dl st items).downloadedIds,
        i ∈ (GUIApp.process_gallery_page dl st items).processed := by
  induction items with
  | nil => intro st h1 h2; exact ⟨h1, h2⟩
  | cons x xs ih =>
    intro st h1 h2
    have hx := gui_item_inv dl x st h1 h2
    exact ih (GUIApp.process_gallery_item dl st x) hx.1 hx.2

lemma gui_walk_inv (src : Nat → Option GalleryPage) (dl : GalleryItem → Bool) :
    ∀ (fuel page : Nat) (st : GUIApp.GalleryState), st.downloadedIds.Nodup →
      (∀ i ∈ st.downloadedIds, i ∈ st.processed) →
      ((GUIApp.download_gallery_loop src dl fuel page st).1.downloadedIds).Nodup := by
  intro fuel
  induction fuel with
  | zero =>
    intro page st h1 _
    simpa [GUIApp.download_gallery_loop] using h1
  | succ fuel ih =>
    intro page st h1 h2
    rw [GUIApp.download_gallery_loop]
    cases hsrc : src page with
    | none => simpa [hsrc] using h1
    | some p =>
      simp only [hsrc]
      by_cases hi : p.items = []
      · rw [if_pos hi]; exact h1
      · rw [if_neg hi]
        have hpg := gui_page_inv dl p.items st h1 h2
        exact ih ((p.currentPage.getD page) + 1) _ hpg.1 hpg.2

set_option maxRecDepth 8000 in
/-- C3 counterexample: the claim says every image identity is downloaded at
most once within one walk, for both cited engines; the CLI image engine
never reads identities — it dedups by the URL-derived destination filename
— so the identity 7 appearing on two consecutive full pages under two
different urls is downloaded twice. -/
theorem C3_counterexample :
    ((ImgPull.download_gallery cliOverlapDistinctSrc (fun _ => true) "m" 10).1.downloadedItems.filter
        (fun it => it.id = some 7)).length = 2 ∧
    ((cliOverlapDistinctSrc 1).getD ⟨[], none, none⟩).items.any
        (fun it => it.id = some 7) = true ∧
    ((cliOverlapDistinctSrc 2).getD ⟨[], none, none⟩).items.any
        (fun it => it.id = some 7) = true ∧
    (2 : Nat) ≠ 1 := by
  decide

set_option maxRecDepth 8000 in
/-- C3 amended: the GUI gallery engine satisfies the claim — the log of
successfully downloaded image ids of any walk is duplicate-free (at most
one download per identity, enforced by the in-memory processed-set spanning
the walk), and in the two-page overlap scenario the shared identity 2 is
downloaded exactly once; the CLI image engine has no processed-set and
dedups by the URL-derived destination filename, which downloads an
overlapping identity exactly once only when it recurs under the same URL
(as in genuine pagination overlap). -/
theorem C3_amended :
    (∀ src dl fuel, ((GUIApp.download_gallery src dl fuel).1.downloadedIds).Nodup) ∧
    (GUIApp.download_gallery guiOverlapSrc (fun _ => true) 10).1.downloadedIds = [1, 2, 3] ∧
    ((GUIApp.download_gallery guiOverlapSrc (fun _ => true) 10).1.downloadedIds.count 2) = 1 ∧
    ((ImgPull.download_gallery cliOverlapSameSrc (fun _ => true) "m" 10).1.downloadedItems.filter
        (fun it => it.id = some 7)).length = 1 := by
  refine ⟨?_, by decide, by decide, by decide⟩
  intro src dl fuel
  exact gui_walk_inv src dl fuel 1 ⟨[], [], 0, []⟩ List.nodup_nil (by intro i h; simp at h)

lemma cli_phase2Row_modelId (dn : Bool) (dl : String → Option String) (e : CiviFetch.CliEntry) :
    (CiviFetch.phase2Row dn dl e).modelId = e.row.modelId := by
  obtain ⟨row, dlUrl, fname, isN⟩ := e
  cases dlUrl with
  | none => rfl
  | some url =>
    unfold CiviFetch.phase2Row
    dsimp only
    split_ifs with h
    · rfl
    · cases dl url <;> rfl

lemma cli_phase1_modelIds (k : String) (fetch : String → Except String MetaInfo) :
    ∀ (ids : List String) (idx : Nat),
      (CiviFetch.phase1 k fetch ids idx).map (fun e => e.row.modelId) = ids := by
  intro ids
  induction ids with
  | nil => intro idx; rfl
  | cons id rest ih =>
    intro idx
    cases h : fetch id <;>
      simp [CiviFetch.phase1, h, CiviFetch.metadataRow, CiviFetch.errorRow, ih]

lemma cli_phase1_statuses (k : String) (fetch : String → Except String MetaInfo)
    (dn : Bool) (dl : String → Option String) :
    ∀ (ids : List String) (idx : Nat),
      (CiviFetch.phase1 k fetch ids idx).map (fun e => (CiviFetch.phase2Row dn dl e).status) =
        ids.map (cliExpectedStatus k fetch dn dl) := by
  intro ids
  induction ids with
  | nil => intro idx; rfl
  | cons id rest ih =>
    intro idx
    simp only [List.map_cons, CiviFetch.phase1, ih]
    congr 1
    cases h : fetch id with
    | error msg =>
      simp only [h]
      unfold cliExpectedStatus
      simp only [h]
      rfl
    | ok md =>
      simp only [h]
      unfold CiviFetch.phase2Row cliExpectedStatus
      simp only [h]
      split_ifs with hn
      · rfl
      · cases dl (md.downloadUrl ++ "?token=" ++ k) <;> rfl

/-- C8 counterexample: the claim says every resolved model gets a final
report row, including models skipped by the NSFW policy; a GUI run over one
NSFW-classified model with NSFW downloads disabled marks it Skipped (NSFW)
but adds it to no report list — the final report has 0 rows for 1 model. -/
theorem C8_counterexample :
    (GUIApp.final_report "K" fetchNsfwOnly ["5"] false guiDlMsgOracle).length = 0 ∧
    (["5"] : List String).length = 1 ∧
    (0 : Nat) ≠ 1 := by
  refine ⟨by rfl, by rfl, by decide⟩

/-- C8 amended: the CLI final report always has exactly one row per
resolved model id in input order (row k carries id k), and each row's
status is exactly that model's terminal status — metadata-fetch failures,
NSFW-policy skips, download successes and download failures included
(`cliExpectedStatus`).  In the 3-id scenario with a 404 on the second id,
both the CLI and the GUI produce 3 rows with row 2 a metadata-fetch
failure and rows 1 and 3 downloaded normally.  The GUI deviates from the
claim only for NSFW-policy-skipped models (see the counterexample). -/
theorem C8_amended :
    (∀ k fetch ids dn dl,
      (CiviFetch.final_report k fetch ids dn dl).map (fun r => r.modelId) = ids) ∧
    (∀ k fetch ids dn dl,
      (CiviFetch.final_report k fetch ids dn dl).length = ids.length) ∧
    (∀ k fetch ids dn dl,
      (CiviFetch.final_report k fetch ids dn dl).map (fun r => r.status) =
        ids.map (cliExpectedStatus k fetch dn dl)) ∧
    (CiviFetch.final_report "K" fetchWith404 ["1", "2", "3"] false dlNameOracle).map
        (fun r => (r.modelId, r.status)) =
      [("1", "Success - f.safetensors"), ("2", "Failed to fetch metadata"),
        ("3", "Success - f.safetensors")] ∧
    (GUIApp.final_report "K" fetchWith404 ["1", "2", "3"] false guiDlMsgOracle).map
        (fun r => (r.modelId, r.status)) =
      [("1", "Success - Model A.safetensors"), ("2", "Failed: 404 Client Error"),
        ("3", "Success - Model A.safetensors")] := by
  refine ⟨?_, ?_, ?_, by rfl, by rfl⟩
  · intro k fetch ids dn dl
    rw [CiviFetch.final_report, List.map_map]
    have : ((fun r => r.modelId) ∘ CiviFetch.phase2Row dn dl) =
        (fun e => e.row.modelId) := by
      funext e
      exact cli_phase2Row_modelId dn dl e
    rw [this, cli_phase1_modelIds]
  · intro k fetch ids dn dl
    have h := congrArg List.length (cli_phase1_modelIds k fetch ids 1)
    rw [List.length_map] at h
    simp only [CiviFetch.final_report, List.length_map]
    exact h
  · intro k fetch ids dn dl
    rw [CiviFetch.final_report, List.map_map]
    exact cli_phase1_statuses k fetch dn dl ids 1

lemma substInvalidChar_not_invalid (c : Char) : substInvalidChar c ∉ invalidFilenameChars := by
  unfold substInvalidChar
  by_cases h : c ∈ invalidFilenameChars
  · rw [if_pos h]; decide
  · rw [if_neg h]; exact h

lemma mem_map_substInvalidChar {c : Char} {l : List Char}
    (h : c ∈ l.map substInvalidChar) : c ∉ invalidFilenameChars := by
  obtain ⟨c0, _, hc⟩ := List.mem_map.mp h
  exact hc ▸ substInvalidChar_not_invalid c0

lemma mem_sanitize_cli {name : String} {c : Char}
    (h : c ∈ (ImgPull.sanitize_filename name).data) : c ∉ invalidFilenameChars :=
  mem_map_substInvalidChar (List.mem_of_mem_take h)

lemma mem_sanitize_gui {name : String} {c : Char}
    (h : c ∈ (GUIApp.downloader_sanitize_filename name).data) : c ∉ invalidFilenameChars := by
  unfold GUIApp.downloader_sanitize_filename at h
  have h1 := List.mem_of_mem_take h
  rw [List.mem_reverse] at h1
  have h2 := (List.dropWhile_suffix _).subset h1
  rw [List.mem_reverse] at h2
  have h3 := (List.dropWhile_suffix _).subset h2
  exact mem_map_substInvalidChar h3

lemma digit_not_invalid {c : Char} (h : c.isDigit = true) : c ∉ invalidFilenameChars := by
  intro hmem
  simp only [invalidFilenameChars, List.mem_cons, List.not_mem_nil, or_false] at hmem
  rcases hmem with h' | h' | h' | h' | h' | h' | h' | h' | h' <;> subst h' <;> simp at h

lemma sanitize_cli_length (name : String) : (ImgPull.sanitize_filename name).length ≤ 100 := by
  show ((name.data.map substInvalidChar).take 100).length ≤ 100
  rw [List.length_take]
  exact min_le_left _ _

lemma sanitize_gui_length (name : String) :
    (GUIApp.downloader_sanitize_filename name).length ≤ 150 := by
  unfold GUIApp.downloader_sanitize_filename
  show (List.take 150 _).length ≤ 150
  rw [List.length_take]
  exact min_le_left _ _

lemma strData_append (a b : String) : (a ++ b).data = a.data ++ b.data := rfl

lemma mem_folder_name_none {name mid : String} {c : Char}
    (hd : mid.data.all Char.isDigit = true)
    (h : c ∈ (GUIApp.model_folder_name name mid none).data) : c ∉ invalidFilenameChars := by
  unfold GUIApp.model_folder_name at h
  simp only [strData_append, List.mem_append] at h
  have hlit1 : ∀ x ∈ "_(ID_".data, x ∉ invalidFilenameChars := by decide
  have hlit2 : ∀ x ∈ ")".data, x ∉ invalidFilenameChars := by decide
  rcases h with ((h | h) | h) | h
  · exact mem_sanitize_gui h
  · exact hlit1 c h
  · exact digit_not_invalid (List.all_eq_true.mp hd c h)
  · exact hlit2 c h

lemma mem_folder_name_some {name mid vid : String} {c : Char}
    (hd : mid.data.all Char.isDigit = true) (hv : vid.data.all Char.isDigit = true)
    (h : c ∈ (GUIApp.model_folder_name name mid (some vid)).data) :
    c ∉ invalidFilenameChars := by
  unfold GUIApp.model_folder_name at h
  simp only [strData_append, List.mem_append] at h
  have hlit1 : ∀ x ∈ "_(ID_".data, x ∉ invalidFilenameChars := by decide
  have hlit2 : ∀ x ∈ ")".data, x ∉ invalidFilenameChars := by decide
  have hlit3 : ∀ x ∈ "_VerID_".data, x ∉ invalidFilenameChars := by decide
  rcases h with ((((h | h) | h) | h) | h) | h
  · exact mem_sanitize_gui h
  · exact hlit1 c h
  · exact digit_not_invalid (List.all_eq_true.mp hd c h)
  · exact hlit2 c h
  · exact hlit3 c h
  · exact digit_not_invalid (List.all_eq_true.mp hv c h)

/-- C10 counterexample: the claim says every image filename the gallery
engines create is built from sanitized output, so no created path component
contains a forbidden character; the CLI image engine embeds the raw
extension-stripped last URL segment, so a url whose last segment is `x?y`
produces and writes the filename `m_x?y.png`, which contains `?`. -/
theorem C10_counterexample :
    (ImgPull.download_gallery cliQuerySrc (fun _ => true) "m" 10).1.fs = ["m_x?y.png"] ∧
    ('?' ∈ "m_x?y.png".data) ∧
    '?' ∈ invalidFilenameChars := by
  refine ⟨by decide, by decide, by decide⟩

/-- C10 amended: all three `sanitize_filename` variants return strings free
of the nine forbidden characters, truncated to 100 characters (CLI image
tool and GUI module level) or 150 characters (GUI gallery class, also
stripped of leading/trailing dots and spaces); every GUI gallery image
filename is fully sanitized, and the GUI per-model folder name contains no
forbidden character given the digit-string model/version ids the resolver
produces.  The CLI gallery image filename is NOT fully sanitized: its
URL-derived middle part can carry forbidden characters (see the
counterexample). -/
theorem C10_amended :
    (∀ name c, c ∈ (ImgPull.sanitize_filename name).data → c ∉ invalidFilenameChars) ∧
    (∀ name, (ImgPull.sanitize_filename name).length ≤ 100) ∧
    (∀ name c, c ∈ (GUIApp.sanitize_filename name).data → c ∉ invalidFilenameChars) ∧
    (∀ name, (GUIApp.sanitize_filename name).length ≤ 100) ∧
    (∀ name c, c ∈ (GUIApp.downloader_sanitize_filename name).data →
      c ∉ invalidFilenameChars) ∧
    (∀ name, (GUIApp.downloader_sanitize_filename name).length ≤ 150) ∧
    (∀ i u c, c ∈ (GUIApp.img_filename i u).data → c ∉ invalidFilenameChars) ∧
    (∀ name mid c, mid.data.all Char.isDigit = true →
      c ∈ (GUIApp.model_folder_name name mid none).data → c ∉ invalidFilenameChars) ∧
    (∀ name mid vid c, mid.data.all Char.isDigit = true →
      vid.data.all Char.isDigit = true →
      c ∈ (GUIApp.model_folder_name name mid (some vid)).data →
      c ∉ invalidFilenameChars) := by
  refine ⟨?_, ?_, ?_, ?_, ?_, ?_, ?_, ?_, ?_⟩
  · intro name c h; exact mem_sanitize_cli h
  · intro name; exact sanitize_cli_length name
  · intro name c h; exact mem_map_substInvalidChar (List.mem_of_mem_take h)
  · intro name
    show ((name.data.map substInvalidChar).take 100).length ≤ 100
    rw [List.length_take]
    exact min_le_left _ _
  · intro name c h; exact mem_sanitize_gui h
  · intro name; exact sanitize_gui_length name
  · intro i u c h; exact mem_sanitize_gui h
  · intro name mid c hd h; exact mem_folder_name_none hd h
  · intro name mid vid c hd hv h; exact mem_folder_name_some hd hv h

/-- C10 witness: the folder-name part applied to a concrete sanitized name
and digit model id. -/
theorem C10_amended_witness : ('_' : Char) ∉ invalidFilenameChars :=
  C10_amended.2.2.2.2.2.2.2.1 "m<" "77" '_' (by decide) (by decide)
